import Mathlib

/-!
Shallow embedding of the metrics core of BR88C/discord-boilerplate
(src/structures/Metrics.ts and src/structures/ClientManager.ts, present in
the repository as the compiled copies src/unnamed/part_000, part_001 and the
TypeScript sources in part_002).

JS objects used as label-to-count maps (`_commands`, `_commandErrors`, the
response-code tally) are modelled as association lists in insertion order,
which is exactly the enumeration order of `Object.entries` for string keys.
JS numbers are modelled as `Nat` / `Int` / `Rat` as appropriate (CPU times
are integer microsecond counters, timestamps integer milliseconds, and the
CPU percentage a rational).
-/

namespace Boilerplate

/-- Lookup in an association list with string keys, returning the value of
the first matching key (JS property access on the modelled object). -/
def alistLookup {α : Type} : List (String × α) → String → Option α
  | [], _ => none
  | (k, v) :: rest, l => if k = l then some v else alistLookup rest l

/-- A label-to-count map (`Record<string, number>` used as a tally),
in insertion order. -/
abbrev Tally : Type := List (String × Nat)

/-- Key-membership test on a tally (`label in m`). -/
def tallyHas : Tally → String → Bool
  | [], _ => false
  | (k, _) :: rest, l => k = l || tallyHas rest l

/-- Increment every entry whose key matches (in a well-formed tally there is
at most one), leaving other entries in place (`m[label]++` on a present key). -/
def tallyBump : Tally → String → Tally
  | [], _ => []
  | (k, v) :: rest, l => (k, if k = l then v + 1 else v) :: tallyBump rest l

/-- The increment idiom `m[label] ??= 0; m[label]++` from
`incrementCommandError` (part_002 lines 188-191) and the
`INTERACTION_CREATE` listener (part_002 lines 170-175): a present key is
incremented in place, an absent key is appended with value 1. -/
def tallyIncrement (t : Tally) (l : String) : Tally :=
  if tallyHas t l then tallyBump t l else t ++ [(l, 1)]

/-- The tally a `Metrics` instance starts with (`_commands = {}`,
`_commandErrors = {}`). -/
def emptyTally : Tally := []

/-- Count lookup, reading an absent key as 0. -/
def countOf (t : Tally) (l : String) : Nat := (alistLookup t l).getD 0

/-- Number of occurrences of a label in a list of issued increments. -/
def countLabel : List String → String → Nat
  | [], _ => 0
  | x :: xs, l => (if x = l then 1 else 0) + countLabel xs l

/-- Apply a finite sequence of `increment(label)` calls, oldest first. -/
def applyIncrements (ls : List String) (t : Tally) : Tally :=
  ls.foldl tallyIncrement t

theorem alistLookup_tallyBump (t : Tally) (x l : String) :
    alistLookup (tallyBump t x) l =
      if l = x then (alistLookup t x).map (· + 1) else alistLookup t l := by
  induction t with
  | nil => by_cases h : l = x <;> simp [tallyBump, alistLookup, h]
  | cons p rest ih =>
    obtain ⟨k, v⟩ := p
    by_cases hkl : k = l
    · subst hkl
      by_cases hlx : k = x <;> simp [tallyBump, alistLookup, hlx, ih]
    · by_cases hlx : l = x
      · subst hlx
        simp [tallyBump, alistLookup, hkl, ih]
      · simp [tallyBump, alistLookup, hkl, hlx, ih]

theorem tallyHas_eq_isSome (t : Tally) (x : String) :
    tallyHas t x = (alistLookup t x).isSome := by
  induction t with
  | nil => simp [tallyHas, alistLookup]
  | cons p rest ih =>
    obtain ⟨k, v⟩ := p
    by_cases hkx : k = x <;> simp [tallyHas, alistLookup, hkx, ih]

theorem alistLookup_append (t s : Tally) (l : String) :
    alistLookup (t ++ s) l =
      match alistLookup t l with
      | some v => some v
      | none => alistLookup s l := by
  induction t with
  | nil => simp [alistLookup]
  | cons p rest ih =>
    obtain ⟨k, v⟩ := p
    by_cases hkl : k = l <;> simp [alistLookup, hkl, ih]

theorem alistLookup_tallyIncrement (t : Tally) (x l : String) :
    alistLookup (tallyIncrement t x) l =
      if l = x then some ((alistLookup t x).getD 0 + 1) else alistLookup t l := by
  unfold tallyIncrement
  by_cases h : tallyHas t x
  · rw [if_pos h, alistLookup_tallyBump]
    have hsome : (alistLookup t x).isSome := by rw [← tallyHas_eq_isSome, h]
    obtain ⟨v, hv⟩ := Option.isSome_iff_exists.mp hsome
    by_cases hlx : l = x <;> simp [hlx, hv]
  · rw [if_neg h, alistLookup_append]
    have hnone : alistLookup t x = none := by
      cases hv : alistLookup t x with
      | none => rfl
      | some v => exact absurd (by rw [tallyHas_eq_isSome, hv]; rfl) h
    by_cases hlx : l = x
    · subst hlx; simp [hnone, alistLookup]
    · have hxl : ¬ x = l := fun hh => hlx hh.symm
      cases htl : alistLookup t l <;> simp [htl, alistLookup, hxl, hlx]

theorem alistLookup_applyIncrements (ls : List String) : ∀ (t : Tally) (l : String),
    alistLookup (applyIncrements ls t) l =
      match alistLookup t l with
      | some v => some (v + countLabel ls l)
      | none => if countLabel ls l = 0 then none else some (countLabel ls l) := by
  induction ls with
  | nil =>
    intro t l
    cases h : alistLookup t l <;> simp [applyIncrements, countLabel, h]
  | cons x xs ih =>
    intro t l
    have hstep : applyIncrements (x :: xs) t = applyIncrements xs (tallyIncrement t x) := rfl
    rw [hstep, ih, alistLookup_tallyIncrement]
    by_cases hlx : l = x
    · subst hlx
      cases h : alistLookup t l <;> simp [h, countLabel] <;> omega
    · have hxl : ¬ x = l := fun hh => hlx hh.symm
      cases h : alistLookup t l <;> simp [h, countLabel, hxl, hlx]

theorem countLabel_perm {ls ls' : List String} (h : ls.Perm ls') (l : String) :
    countLabel ls l = countLabel ls' l := by
  induction h with
  | nil => rfl
  | cons x _ ih => simp [countLabel, ih]
  | swap x y rest => simp [countLabel]; omega
  | trans _ _ ih1 ih2 => rw [ih1, ih2]

/-- C5: starting from the empty tally, any finite sequence of
`increment(label)` calls yields a tally that maps each label to exactly the
number of increments issued for it (an absent label stays absent, a first
increment creates the entry with value 1, each further increment adds 1),
and the result is independent of the order of the increments. -/
theorem increment_sequence_counts (ls : List String) (l : String) :
    (alistLookup (applyIncrements ls emptyTally) l =
      if countLabel ls l = 0 then none else some (countLabel ls l))
    ∧ (∀ ls' : List String, ls.Perm ls' →
        alistLookup (applyIncrements ls emptyTally) l =
          alistLookup (applyIncrements ls' emptyTally) l) := by
  have base : ∀ (ms : List String),
      alistLookup (applyIncrements ms emptyTally) l =
        if countLabel ms l = 0 then none else some (countLabel ms l) := by
    intro ms
    rw [alistLookup_applyIncrements]
    simp [emptyTally, alistLookup]
  refine ⟨base ls, ?_⟩
  intro ls' hperm
  rw [base ls, base ls', countLabel_perm hperm]

/-- Witness for `increment_sequence_counts` at a concrete sequence: three
increments of "a" interleaved with one of "b" give count 3 for "a", and a
reordering of the same increments yields the same lookup. -/
theorem increment_sequence_counts_witness :
    alistLookup (applyIncrements ["a", "b", "a", "a"] emptyTally) "a" = some 3
    ∧ alistLookup (applyIncrements ["a", "b", "a", "a"] emptyTally) "a" =
        alistLookup (applyIncrements ["b", "a", "a", "a"] emptyTally) "a" := by
  have h := increment_sequence_counts ["a", "b", "a", "a"] "a"
  refine ⟨?_, h.2 ["b", "a", "a", "a"] (by decide)⟩
  rw [h.1]
  decide

/-- A process CPU-time snapshot (`process.cpuUsage()`), in microseconds. -/
structure CpuSample where
  user : ℚ
  system : ℚ
deriving DecidableEq

/-- The retained `_lastCPUMetrics` field: a CPU-time snapshot plus the
wall-clock time (`Date.now()`, milliseconds) it was taken at. -/
structure CPUMetrics where
  usage : CpuSample
  time : ℚ
deriving DecidableEq

/-- The CPU percentage computed at part_002 line 205 / part_000 line 125:
`100 * ((usage.system - last.usage.system) + (usage.user - last.usage.user))
/ ((time - last.time) * 1000)`. -/
def cpuPercent (last : CPUMetrics) (usage : CpuSample) (time : ℚ) : ℚ :=
  100 * ((usage.system - last.usage.system) + (usage.user - last.usage.user)) /
    ((time - last.time) * 1000)

/-- A field value of an InfluxDB point (`intField` / `floatField` /
`stringField`). -/
inductive FieldValue where
  | intField (n : Int)
  | floatField (q : ℚ)
  | stringField (s : String)
deriving DecidableEq

/-- An InfluxDB point: measurement name, tags, fields, in the order they are
set by the source. -/
structure Point where
  measurement : String
  tags : List (String × String)
  fields : List (String × FieldValue)
deriving DecidableEq

/-- The `process` measurement point (part_002 lines 230-235). -/
def processPoint (cpu : ℚ) (memory shardCount guilds : Int) (ping : ℚ) : Point :=
  ⟨"process", [],
    [("cpu", .floatField cpu), ("memory", .intField memory),
     ("shards", .intField shardCount), ("guilds", .intField guilds),
     ("ping", .floatField ping)]⟩

/-- The `command` points: one per entry of `Object.entries(stats.commands)`
(part_002 lines 237-244). -/
def commandPoints (commands : Tally) : List Point :=
  commands.map fun p => ⟨"command", [("name", p.1)], [("count", .intField p.2)]⟩

/-- The `commandError` points (part_002 lines 246-253). The parameter is
named `commands` because the source iterates `Object.entries(stats.commands)`
here as well, not `stats.commandErrors`. -/
def commandErrorPoints (commands : Tally) : List Point :=
  commands.map fun p => ⟨"commandError", [("name", p.1)], [("count", .intField p.2)]⟩

/-- The `rest` points, one per entry of the response-code tally
(part_002 lines 255-262). -/
def restPoints (rest : Tally) : List Point :=
  rest.map fun p => ⟨"rest", [("code", p.1)], [("count", .intField p.2)]⟩

/-- A per-shard snapshot as assembled into `stats.shards`
(part_002 lines 211-216). -/
structure ShardInfo where
  id : Nat
  guilds : Nat
  ping : Int
  state : String
deriving DecidableEq

/-- The `shard` points (part_002 lines 264-273). -/
def shardPoints (shards : List ShardInfo) : List Point :=
  shards.map fun s =>
    ⟨"shard", [("id", toString s.id)],
      [("guilds", .intField s.guilds), ("ping", .intField s.ping),
       ("state", .stringField s.state)]⟩

/-- The read-only view of the client consumed by one report cycle:
`client.rest.responseCodeTally`, `client.gateway.*` and
`process.memoryUsage.rss()`. -/
structure ClientSnapshot where
  responseCodeTally : Tally
  shardCount : Nat
  guildCount : Nat
  averagePing : ℚ
  shards : List ShardInfo
  memoryRss : Nat
deriving DecidableEq

/-- The mutable state of a `Metrics` instance that the modelled operations
touch: the two tallies and the retained CPU sample. -/
structure MetricsState where
  commands : Tally
  commandErrors : Tally
  lastCPUMetrics : CPUMetrics
deriving DecidableEq

/-- The per-cycle inputs of `reportInfluxDBMetrics`: the fresh CPU sample
and wall time, the client snapshot, the result of awaiting the optional
`_influxDBCallback` (which may reject), and whether the buffered write then
flushes successfully. -/
structure ReportInputs where
  usage : CpuSample
  time : ℚ
  snapshot : ClientSnapshot
  extraPoints : Except String (List Point)
  writeOk : Bool

/-- InfluxDB options as passed in by the caller (`MetricsOptions.influxDB`),
with the optional fields still optional. -/
structure InfluxDBOptionsIn where
  application : String
  bucket : String
  extraTags : Option (List (String × String))
  org : String
  reportInterval : Option Nat
  token : String
  url : String
deriving DecidableEq

/-- InfluxDB options after the constructor applied the `?? 0` / `?? {}`
defaults (part_002 lines 125-133). -/
structure InfluxDBOptions where
  application : String
  bucket : String
  extraTags : List (String × String)
  org : String
  reportInterval : Nat
  token : String
  url : String
deriving DecidableEq

/-- Top.gg options as passed in by the caller (`MetricsOptions.topgg`). -/
structure TopggOptionsIn where
  reportInterval : Option Nat
  postShards : Option Bool
  token : Option String
deriving DecidableEq

/-- Top.gg options after the constructor applied the defaults and the
`process.env.TOPGG_TOKEN` fallback (part_002 lines 134-138). The token stays
optional: the TS non-null assertion on the env fallback can still leave it
undefined at runtime. -/
structure TopggOptions where
  reportInterval : Nat
  postShards : Bool
  token : Option String
deriving DecidableEq

/-- The constructor argument record. -/
structure MetricsOptionsIn where
  influxDB : Option InfluxDBOptionsIn
  topgg : Option TopggOptionsIn
deriving DecidableEq

/-- The process environment slice the module reads. -/
structure Env where
  TOPGG_TOKEN : Option String
deriving DecidableEq

/-- JS truthiness of an optional string (`!s` / `s?.length` tests):
`undefined` and the empty string are falsy. -/
def jsTruthyString : Option String → Bool
  | none => false
  | some s => s != ""

/-- Defaulting of the caller's InfluxDB options (part_002 lines 125-133). -/
def resolveInfluxDBOptions (i : InfluxDBOptionsIn) : InfluxDBOptions :=
  { application := i.application
    bucket := i.bucket
    extraTags := i.extraTags.getD []
    org := i.org
    reportInterval := i.reportInterval.getD 0
    token := i.token
    url := i.url }

/-- Defaulting of the caller's Top.gg options, with the environment fallback
`options.topgg.token ?? process.env.TOPGG_TOKEN` (part_002 lines 134-138). -/
def resolveTopggOptions (t : TopggOptionsIn) (env : Env) : TopggOptions :=
  { reportInterval := t.reportInterval.getD 0
    postShards := t.postShards.getD false
    token := match t.token with
      | some s => some s
      | none => env.TOPGG_TOKEN }

/-- The two interval timers the constructor can arm. -/
inductive Timer where
  | influxDB
  | topgg
deriving DecidableEq

/-- The observable outcome of running the `Metrics` constructor
(part_002 lines 123-180): the resolved options, whether the InfluxDB client
was created, which interval timers were armed (in order), whether the
`INTERACTION_CREATE` listener was registered, and the thrown error message
if the constructor threw. Side effects performed before a throw persist. -/
structure ConstructorResult where
  influxDB : Option InfluxDBOptions
  topgg : Option TopggOptions
  influxClientSet : Bool
  armedTimers : List Timer
  interactionListenerRegistered : Bool
  thrown : Option String
deriving DecidableEq

/-- The `Metrics` constructor (part_002 lines 123-180): resolve options,
create the InfluxDB client and arm its timer when an interval is set, then
check the Top.gg token (throwing `Top.gg API token is undefined` when it is
falsy) and arm the Top.gg timer, and finally register the
`INTERACTION_CREATE` listener. -/
def mkMetrics (o : MetricsOptionsIn) (env : Env) : ConstructorResult :=
  let influxDB := o.influxDB.map resolveInfluxDBOptions
  let topgg := o.topgg.map (resolveTopggOptions · env)
  let influxClientSet := influxDB.isSome
  let armedInflux : List Timer :=
    match influxDB with
    | some i => if i.reportInterval ≠ 0 then [Timer.influxDB] else []
    | none => []
  match topgg with
  | some t =>
    if jsTruthyString t.token = false then
      { influxDB := influxDB, topgg := topgg, influxClientSet := influxClientSet
        armedTimers := armedInflux
        interactionListenerRegistered := false
        thrown := some "Top.gg API token is undefined" }
    else
      { influxDB := influxDB, topgg := topgg, influxClientSet := influxClientSet
        armedTimers := armedInflux ++ (if t.reportInterval ≠ 0 then [Timer.topgg] else [])
        interactionListenerRegistered := true
        thrown := none }
  | none =>
    { influxDB := influxDB, topgg := topgg, influxClientSet := influxClientSet
      armedTimers := armedInflux
      interactionListenerRegistered := true
      thrown := none }

/-- One invocation of `reportInfluxDBMetrics` (part_002 lines 196-285),
returning the state after the call together with its outcome. The guard
throws when the InfluxDB options or client are missing; otherwise the fresh
sample is taken, `stats` is assembled against the old `_lastCPUMetrics`,
`_lastCPUMetrics` is overwritten, the points are built (the `commandError`
points from `stats.commands`, as in the source), the extension callback is
awaited, and the batch is written and flushed. A rejection of the callback
or of the write surfaces as an error after the state update. -/
def reportInfluxDBMetrics (influxDB : Option InfluxDBOptions) (influxClientSet : Bool)
    (st : MetricsState) (inp : ReportInputs) : MetricsState × Except String (List Point) :=
  match influxDB with
  | none => (st, .error "Cannot post to InfluxDB; options not defined")
  | some _ =>
    if influxClientSet = false then
      (st, .error "Cannot post to InfluxDB; options not defined")
    else
      let cpu := cpuPercent st.lastCPUMetrics inp.usage inp.time
      let st' := { st with lastCPUMetrics := ⟨inp.usage, inp.time⟩ }
      match inp.extraPoints with
      | .error e => (st', .error e)
      | .ok extra =>
        let pts :=
          processPoint cpu (inp.snapshot.memoryRss : Int) (inp.snapshot.shardCount : Int)
              (inp.snapshot.guildCount : Int) inp.snapshot.averagePing
            :: (commandPoints st.commands ++ commandErrorPoints st.commands ++
                restPoints inp.snapshot.responseCodeTally ++
                shardPoints inp.snapshot.shards ++ extra)
        if inp.writeOk then (st', .ok pts) else (st', .error "write failed")

/-- The body posted to Top.gg (part_002 lines 293-296). -/
structure TopggPayload where
  server_count : Nat
  shard_count : Option Nat
deriving DecidableEq

/-- One invocation of `reportTopggMetrics` (part_002 lines 290-301),
including the token guard of `ClientManager.topggRequest`
(part_002 lines 680-689). -/
def reportTopggMetrics (topgg : Option TopggOptions) (env : Env)
    (guildCount shardCount : Nat) : Except String TopggPayload :=
  match topgg with
  | none => .error "Cannot post to Top.gg; options not defined"
  | some t =>
    if (jsTruthyString t.token || jsTruthyString env.TOPGG_TOKEN) = false then
      .error "Top.gg API token is undefined"
    else
      .ok { server_count := guildCount
            shard_count := if t.postShards then some shardCount else none }

/-- The payload of an `INTERACTION_CREATE` dispatch (`d`). -/
structure InteractionPayload where
  type : Nat
  dataId : String
  dataName : String
deriving DecidableEq

/-- `InteractionType.ApplicationCommand` from discord-api-types v10. -/
def applicationCommandType : Nat := 2

/-- A gateway event as seen by the listener: an `INTERACTION_CREATE`
dispatch, or any other event (for which no listener of this module runs). -/
inductive GatewayEvent where
  | interactionCreate (d : InteractionPayload)
  | other
deriving DecidableEq

/-- The `INTERACTION_CREATE` listener registered by the constructor
(part_002 lines 170-175): increment the invocation tally for the command
name when the interaction is an application command whose id is registered
in `client.commandHandler.commands`. -/
def handleGatewayEvent (registeredCommandIds : List String) (ev : GatewayEvent)
    (st : MetricsState) : MetricsState :=
  match ev with
  | .interactionCreate d =>
    if d.type = applicationCommandType ∧ registeredCommandIds.contains d.dataId = true then
      { st with commands := tallyIncrement st.commands d.dataName }
    else st
  | .other => st

/-- `incrementCommandError` (part_002 lines 188-191). -/
def incrementCommandError (st : MetricsState) (command : String) : MetricsState :=
  { st with commandErrors := tallyIncrement st.commandErrors command }

/-- The operations that can touch a `Metrics` instance's state over its
lifetime. -/
inductive MetricsOp where
  | gatewayEvent (registeredCommandIds : List String) (ev : GatewayEvent)
  | commandError (command : String)
  | reportInflux (influxDB : Option InfluxDBOptions) (clientSet : Bool) (inp : ReportInputs)
  | reportTopgg

/-- State effect of each operation (`reportTopggMetrics` reads only). -/
def applyOp (op : MetricsOp) (st : MetricsState) : MetricsState :=
  match op with
  | .gatewayEvent reg ev => handleGatewayEvent reg ev st
  | .commandError c => incrementCommandError st c
  | .reportInflux o cs inp => (reportInfluxDBMetrics o cs st inp).1
  | .reportTopgg => st

/-- Scheduling state of one sink: whether its `setInterval` timer is armed
and how many report cycles are currently in flight. -/
structure SinkSchedule where
  timerArmed : Bool
  inFlight : Nat
deriving DecidableEq

/-- Scheduler events for one sink: the interval timer fires, or an in-flight
cycle completes (successfully or not). -/
inductive SinkEvent where
  | tick
  | complete (success : Bool)
deriving DecidableEq

/-- Scheduled-tick step relation of one sink, from the constructor's
`setInterval(() => { this.report...().catch(...) }, interval)`: a tick with
the timer armed always starts a new cycle (the source has no re-entrancy
guard and no queue), and a completing cycle, failed or not, only ends
itself; a failure is caught by the attached `.catch` handler, which logs it,
and nothing ever calls `clearInterval`. -/
def sinkStep (s : SinkSchedule) (e : SinkEvent) : SinkSchedule :=
  match e with
  | .tick => if s.timerArmed then { s with inFlight := s.inFlight + 1 } else s
  | .complete _ => { s with inFlight := s.inFlight - 1 }

/-- Joint scheduler state of the two sinks; `processAlive` records that the
process was not crashed by a cycle failure. -/
structure SchedulerState where
  influx : SinkSchedule
  topgg : SinkSchedule
  processAlive : Bool
deriving DecidableEq

/-- An event addressed to one of the two independent sink schedules. -/
inductive SchedulerEvent where
  | influxEvent (e : SinkEvent)
  | topggEvent (e : SinkEvent)
deriving DecidableEq

/-- Joint step: each sink's schedule evolves independently, and no event
(in particular no failed completion) kills the process, because every cycle
is wrapped in a `.catch` that only logs. -/
def schedulerStep (st : SchedulerState) (ev : SchedulerEvent) : SchedulerState :=
  match ev with
  | .influxEvent e => { st with influx := sinkStep st.influx e }
  | .topggEvent e => { st with topgg := sinkStep st.topgg e }

/-- Success test on an `Except` outcome. -/
def exceptIsOk {ε α : Type} : Except ε α → Bool
  | .ok _ => true
  | .error _ => false

/-- Points written by a report outcome (empty when the cycle failed). -/
def reportPoints (r : MetricsState × Except String (List Point)) : List Point :=
  match r.2 with
  | .ok pts => pts
  | .error _ => []

/-- Pairs (name tag, count field) of the points whose measurement is
`commandError`. -/
def commandErrorNameCounts (pts : List Point) : List (String × Option FieldValue) :=
  (pts.filter fun p => p.measurement == "commandError").map
    fun p => ((alistLookup p.tags "name").getD "", alistLookup p.fields "count")

/-- C2: for any previous sample and any current sample taken at a different
wall-clock time, the CPU percentage computed by a report cycle equals
`100 * ((cur.system - prev.system) + (cur.user - prev.user)) /
((cur.time - prev.time) * 1000)`, and at the samples
`{user 1000, system 500, t 0}` and `{user 3000, system 1500, t 2000}` it is
exactly 0.15. -/
theorem cpuPercent_formula (last : CPUMetrics) (usage : CpuSample) (time : ℚ)
    (h : time ≠ last.time) :
    cpuPercent last usage time =
      100 * ((usage.system - last.usage.system) + (usage.user - last.usage.user)) /
        ((time - last.time) * 1000)
    ∧ cpuPercent ⟨⟨1000, 500⟩, 0⟩ ⟨3000, 1500⟩ 2000 = 15 / 100 := by
  refine ⟨rfl, ?_⟩
  norm_num [cpuPercent]

/-- Witness for `cpuPercent_formula` at the concrete samples of the claim. -/
theorem cpuPercent_formula_witness :
    cpuPercent ⟨⟨1000, 500⟩, 0⟩ ⟨3000, 1500⟩ 2000 = 15 / 100 :=
  (cpuPercent_formula ⟨⟨1000, 500⟩, 0⟩ ⟨3000, 1500⟩ 2000 (by norm_num)).2

/-- C8: every invocation of the InfluxDB report cycle that passes the
configuration guard replaces `_lastCPUMetrics` with the fresh sample
unconditionally: the state after the call carries the fresh sample for every
possible outcome of the extension hook and of the transmission, and the
resulting state does not depend on whether the write succeeds. -/
theorem report_updates_lastCPUMetrics (iopts : InfluxDBOptions) (st : MetricsState)
    (inp : ReportInputs) :
    ((reportInfluxDBMetrics (some iopts) true st inp).1).lastCPUMetrics =
      ⟨inp.usage, inp.time⟩
    ∧ (reportInfluxDBMetrics (some iopts) true st { inp with writeOk := false }).1 =
        (reportInfluxDBMetrics (some iopts) true st { inp with writeOk := true }).1 := by
  obtain ⟨u, t, snap, ex, w⟩ := inp
  unfold reportInfluxDBMetrics
  cases ex <;> cases w <;> simp

/-- C3 counterexample: under the step relation of the source's scheduling
(no re-entrancy guard), two timer ticks with no completed cycle in between
leave two cycles in flight, so "at most one in-flight cycle per sink" fails
at the concrete state with the timer armed and no cycle running. -/
theorem overlap_guard_counterexample :
    ¬ ((sinkStep (sinkStep ⟨true, 0⟩ .tick) .tick).inFlight ≤ 1) := by decide

/-- C3 amended: a timer tick that fires while the sink's previous cycle has
not completed starts a second concurrent cycle; every tick with the timer
armed increments the number of in-flight cycles by one (the tick is neither
dropped nor queued) and leaves the timer armed. -/
theorem tick_starts_concurrent_cycle (s : SinkSchedule) (h : s.timerArmed = true) :
    (sinkStep s .tick).inFlight = s.inFlight + 1
    ∧ (sinkStep s .tick).timerArmed = s.timerArmed := by
  simp [sinkStep, h]

/-- Witness for `tick_starts_concurrent_cycle`: a tick during an in-flight
cycle yields two in-flight cycles. -/
theorem tick_starts_concurrent_cycle_witness :
    (sinkStep ⟨true, 1⟩ .tick).inFlight = 1 + 1 :=
  (tick_starts_concurrent_cycle ⟨true, 1⟩ rfl).1

/-- Timer armedness is untouched by every scheduler event. -/
theorem sinkStep_timerArmed (s : SinkSchedule) (e : SinkEvent) :
    (sinkStep s e).timerArmed = s.timerArmed := by
  cases e with
  | tick => by_cases h : s.timerArmed <;> simp [sinkStep, h]
  | complete b => simp [sinkStep]

/-- C6: no scheduler event — in particular no failed cycle completion —
disarms either sink's timer or kills the process, an event of one sink
leaves the other sink's schedule unchanged, and after a failed completion a
subsequent tick of the armed timer starts the next cycle. -/
theorem failure_never_cancels_schedule (st : SchedulerState) (ev : SchedulerEvent) :
    (schedulerStep st ev).influx.timerArmed = st.influx.timerArmed
    ∧ (schedulerStep st ev).topgg.timerArmed = st.topgg.timerArmed
    ∧ (schedulerStep st ev).processAlive = st.processAlive
    ∧ (∀ e, ev = .influxEvent e → (schedulerStep st ev).topgg = st.topgg)
    ∧ (∀ e, ev = .topggEvent e → (schedulerStep st ev).influx = st.influx)
    ∧ (st.influx.timerArmed = true →
        (sinkStep (sinkStep st.influx (.complete false)) .tick).inFlight =
          st.influx.inFlight - 1 + 1) := by
  refine ⟨?_, ?_, ?_, ?_, ?_, ?_⟩
  · cases ev <;> simp [schedulerStep, sinkStep_timerArmed]
  · cases ev <;> simp [schedulerStep, sinkStep_timerArmed]
  · cases ev <;> simp [schedulerStep]
  · intro e h; subst h; simp [schedulerStep]
  · intro e h; subst h; simp [schedulerStep]
  · intro h; simp [sinkStep, h]

/-- Witness for `failure_never_cancels_schedule`: a failed InfluxDB cycle
completion leaves the Top.gg schedule untouched, and the next InfluxDB tick
starts cycle N+1. -/
theorem failure_never_cancels_schedule_witness :
    (schedulerStep ⟨⟨true, 1⟩, ⟨true, 0⟩, true⟩ (.influxEvent (.complete false))).topgg
      = ⟨true, 0⟩
    ∧ (sinkStep (sinkStep ⟨true, 1⟩ (.complete false)) .tick).inFlight = 1 - 1 + 1 := by
  have h := failure_never_cancels_schedule ⟨⟨true, 1⟩, ⟨true, 0⟩, true⟩
    (.influxEvent (.complete false))
  exact ⟨h.2.2.2.1 _ rfl, h.2.2.2.2.2 rfl⟩

/-- InfluxDB options with a nonzero report interval, for the configuration
counterexample. -/
def influxIn0 : InfluxDBOptionsIn := ⟨"app", "bucket", none, "org", some 1000, "itoken", "url"⟩

/-- Top.gg options enabled without a token. -/
def topggIn0 : TopggOptionsIn := ⟨some 1000, none, none⟩

/-- Constructor options enabling both sinks, the Top.gg one without a
credential. -/
def optsIn0 : MetricsOptionsIn := ⟨some influxIn0, some topggIn0⟩

/-- An environment without a `TOPGG_TOKEN` fallback. -/
def env0 : Env := ⟨none⟩

/-- C4 counterexample: with the InfluxDB sink configured at a nonzero
interval and the Top.gg sink enabled without a credential, the constructor
does throw the descriptive error, but the InfluxDB interval timer has
already been armed when it throws — so the claim's "before any timer is
armed" is false at this input. -/
theorem topgg_token_throw_counterexample :
    (mkMetrics optsIn0 env0).thrown = some "Top.gg API token is undefined"
    ∧ (mkMetrics optsIn0 env0).armedTimers = [Timer.influxDB]
    ∧ (mkMetrics optsIn0 env0).armedTimers ≠ [] := by decide

/-- C4 amended: if the Top.gg sink is enabled with no token in the options
and no `TOPGG_TOKEN` environment fallback, the constructor throws
`Top.gg API token is undefined` before the Top.gg timer is armed and before
the interaction listener is registered (so no scheduled Top.gg tick can ever
run); the InfluxDB timer, when that sink is configured with a nonzero
interval, has already been armed at the time of the throw. -/
theorem topgg_token_throws_before_topgg_timer (o : MetricsOptionsIn) (env : Env)
    (t : TopggOptionsIn) (h1 : o.topgg = some t) (h2 : t.token = none)
    (h3 : env.TOPGG_TOKEN = none) :
    (mkMetrics o env).thrown = some "Top.gg API token is undefined"
    ∧ Timer.topgg ∉ (mkMetrics o env).armedTimers
    ∧ (mkMetrics o env).interactionListenerRegistered = false
    ∧ ∀ i, o.influxDB = some i → i.reportInterval.getD 0 ≠ 0 →
        Timer.influxDB ∈ (mkMetrics o env).armedTimers := by
  have htok : jsTruthyString (resolveTopggOptions t env).token = false := by
    simp [resolveTopggOptions, h2, h3, jsTruthyString]
  cases ho : o.influxDB with
  | none =>
    simp [mkMetrics, ho, h1, htok]
  | some i =>
    by_cases hi : (resolveInfluxDBOptions i).reportInterval = 0
    · have hzero : i.reportInterval.getD 0 = 0 := hi
      refine ⟨?_, ?_, ?_, ?_⟩ <;>
        simp [mkMetrics, ho, h1, htok, hi, hzero]
    · have hnz : i.reportInterval.getD 0 ≠ 0 := hi
      refine ⟨?_, ?_, ?_, ?_⟩ <;>
        simp [mkMetrics, ho, h1, htok, hi, hnz]

/-- Witness for `topgg_token_throws_before_topgg_timer` at the concrete
configuration of the counterexample. -/
theorem topgg_token_throws_before_topgg_timer_witness :
    (mkMetrics optsIn0 env0).thrown = some "Top.gg API token is undefined"
    ∧ Timer.topgg ∉ (mkMetrics optsIn0 env0).armedTimers
    ∧ Timer.influxDB ∈ (mkMetrics optsIn0 env0).armedTimers := by
  have h := topgg_token_throws_before_topgg_timer optsIn0 env0 topggIn0 rfl rfl rfl
  exact ⟨h.1, h.2.1, h.2.2.2 influxIn0 rfl (by decide)⟩

/-- C7: a sink whose report interval resolves to 0 (an explicit 0 or an
omitted interval) never gets its timer armed, so no cycle ever fires
automatically; the InfluxDB client is still created whenever the InfluxDB
options are defined, and both manual triggers still succeed: the InfluxDB
cycle succeeds for defined options when the hook and the write succeed, and
the Top.gg cycle succeeds for defined options with a usable token. -/
theorem zero_interval_never_schedules :
    (∀ (o : MetricsOptionsIn) (env : Env) (i : InfluxDBOptionsIn),
       o.influxDB = some i → i.reportInterval.getD 0 = 0 →
       Timer.influxDB ∉ (mkMetrics o env).armedTimers)
    ∧ (∀ (o : MetricsOptionsIn) (env : Env) (t : TopggOptionsIn),
       o.topgg = some t → t.reportInterval.getD 0 = 0 →
       Timer.topgg ∉ (mkMetrics o env).armedTimers)
    ∧ (∀ (o : MetricsOptionsIn) (env : Env) (i : InfluxDBOptionsIn),
       o.influxDB = some i → (mkMetrics o env).influxClientSet = true)
    ∧ (∀ (iopts : InfluxDBOptions) (st : MetricsState) (inp : ReportInputs)
         (extra : List Point),
       inp.extraPoints = .ok extra → inp.writeOk = true →
       exceptIsOk (reportInfluxDBMetrics (some iopts) true st inp).2 = true)
    ∧ (∀ (topts : TopggOptions) (env : Env) (g s : Nat),
       (jsTruthyString topts.token || jsTruthyString env.TOPGG_TOKEN) = true →
       exceptIsOk (reportTopggMetrics (some topts) env g s) = true) := by
  refine ⟨?_, ?_, ?_, ?_, ?_⟩
  · intro o env i hio hzero
    have hi : (resolveInfluxDBOptions i).reportInterval = 0 := hzero
    cases hto : o.topgg with
    | none => simp [mkMetrics, hio, hto, hi]
    | some t =>
      by_cases htok : jsTruthyString (resolveTopggOptions t env).token = false
      · simp [mkMetrics, hio, hto, hi, htok]
      · by_cases hti : (resolveTopggOptions t env).reportInterval = 0 <;>
          simp [mkMetrics, hio, hto, hi, htok, hti]
  · intro o env t hto hzero
    have hti : (resolveTopggOptions t env).reportInterval = 0 := hzero
    have harm : ∀ a : List Timer, Timer.topgg ∉ a →
        Timer.topgg ∉ a ++ (if (resolveTopggOptions t env).reportInterval ≠ 0
          then [Timer.topgg] else []) := by
      intro a ha
      simp [hti, ha]
    cases hio : o.influxDB with
    | none =>
      by_cases htok : jsTruthyString (resolveTopggOptions t env).token = false <;>
        simp [mkMetrics, hio, hto, htok, hti]
    | some i =>
      by_cases htok : jsTruthyString (resolveTopggOptions t env).token = false
      · by_cases hi : (resolveInfluxDBOptions i).reportInterval = 0 <;>
          simp [mkMetrics, hio, hto, htok, hi]
      · by_cases hi : (resolveInfluxDBOptions i).reportInterval = 0 <;>
          simp [mkMetrics, hio, hto, htok, hi, hti]
  · intro o env i hio
    cases hto : o.topgg with
    | none => simp [mkMetrics, hio, hto]
    | some t =>
      by_cases htok : jsTruthyString (resolveTopggOptions t env).token = false <;>
        simp [mkMetrics, hio, hto, htok]
  · intro iopts st inp extra hex hw
    unfold reportInfluxDBMetrics
    simp [hex, hw, exceptIsOk]
  · intro topts env g s htok
    unfold reportTopggMetrics
    simp [htok, exceptIsOk]

/-- Witness for `zero_interval_never_schedules`: an InfluxDB sink with an
omitted interval is never armed, and a manual Top.gg report with a token
succeeds. -/
theorem zero_interval_never_schedules_witness :
    Timer.influxDB ∉
      (mkMetrics ⟨some ⟨"app", "b", none, "o", none, "tk", "u"⟩, none⟩ env0).armedTimers
    ∧ exceptIsOk (reportTopggMetrics (some ⟨0, false, some "tk"⟩) env0 5 2) = true := by
  refine ⟨?_, ?_⟩
  · exact zero_interval_never_schedules.1 ⟨some ⟨"app", "b", none, "o", none, "tk", "u"⟩, none⟩
      env0 ⟨"app", "b", none, "o", none, "tk", "u"⟩ rfl rfl
  · exact zero_interval_never_schedules.2.2.2.2 ⟨0, false, some "tk"⟩ env0 5 2 (by decide)

/-- Resolved InfluxDB options for the report-cycle evaluation. -/
def iopts1 : InfluxDBOptions := ⟨"app", "bucket", [], "org", 0, "itoken", "url"⟩

/-- A state in which the invocation tally has one entry and the error tally
is empty. -/
def st1 : MetricsState := ⟨[("ping", 2)], [], ⟨⟨0, 0⟩, 0⟩⟩

/-- An idle client snapshot. -/
def snapshot1 : ClientSnapshot := ⟨[], 0, 0, 0, [], 0⟩

/-- Per-cycle inputs with no extension hook output and a successful write. -/
def inp1 : ReportInputs := ⟨⟨0, 0⟩, 1000, snapshot1, .ok [], true⟩

/-- C1: at a state whose invocation tally is `{ping: 2}` and whose error
tally is empty, a successful report cycle emits a `commandError` point
`(name "ping", count 2)` even though the error tally has no entries — the
`commandError` points are built from `Object.entries(stats.commands)`
(part_002 line 247), not from the error tally, so the set of (name, count)
pairs in the `commandError` points differs from the entries of
`_commandErrors`. -/
theorem commandError_points_use_invocation_tally :
    commandErrorNameCounts
        (reportPoints (reportInfluxDBMetrics (some iopts1) true st1 inp1)) =
      [("ping", some (FieldValue.intField 2))]
    ∧ st1.commandErrors = [] := by decide

/-- A single increment never decreases any count. -/
theorem countOf_le_tallyIncrement (t : Tally) (c l : String) :
    countOf t l ≤ countOf (tallyIncrement t c) l := by
  unfold countOf
  rw [alistLookup_tallyIncrement]
  by_cases h : l = c
  · subst h
    cases hv : alistLookup t l <;> simp [hv]
  · simp [h]

/-- A single increment never removes an entry. -/
theorem isSome_le_tallyIncrement (t : Tally) (c l : String) :
    (alistLookup t l).isSome ≤ (alistLookup (tallyIncrement t c) l).isSome := by
  rw [alistLookup_tallyIncrement]
  by_cases h : l = c
  · simp [h]
  · simp [h]

/-- An InfluxDB report cycle reads the tallies but never writes them. -/
theorem report_preserves_tallies (o : Option InfluxDBOptions) (cs : Bool)
    (st : MetricsState) (inp : ReportInputs) :
    (reportInfluxDBMetrics o cs st inp).1.commands = st.commands
    ∧ (reportInfluxDBMetrics o cs st inp).1.commandErrors = st.commandErrors := by
  unfold reportInfluxDBMetrics
  cases o with
  | none => simp
  | some i =>
    cases cs <;> cases hex : inp.extraPoints <;> cases hw : inp.writeOk <;>
      simp [hex, hw]

/-- C9: every exposed operation — the gateway listener, the error increment,
and both report cycles — leaves each tally entry's count no smaller than
before and never removes an entry; each operation's effect on each tally is
either the identity or a single `increment`. -/
theorem tallies_monotone (op : MetricsOp) (st : MetricsState) (l : String) :
    countOf st.commands l ≤ countOf (applyOp op st).commands l
    ∧ countOf st.commandErrors l ≤ countOf (applyOp op st).commandErrors l
    ∧ (alistLookup st.commands l).isSome ≤ (alistLookup (applyOp op st).commands l).isSome
    ∧ (alistLookup st.commandErrors l).isSome ≤
        (alistLookup (applyOp op st).commandErrors l).isSome
    ∧ ((applyOp op st).commands = st.commands ∨
        ∃ c, (applyOp op st).commands = tallyIncrement st.commands c)
    ∧ ((applyOp op st).commandErrors = st.commandErrors ∨
        ∃ c, (applyOp op st).commandErrors = tallyIncrement st.commandErrors c) := by
  cases op with
  | gatewayEvent reg ev =>
    cases ev with
    | interactionCreate d =>
      by_cases h : d.type = applicationCommandType ∧ reg.contains d.dataId = true
      · simp only [applyOp, handleGatewayEvent, if_pos h]
        exact ⟨countOf_le_tallyIncrement _ _ _, le_refl _,
          isSome_le_tallyIncrement _ _ _, le_refl _,
          Or.inr ⟨d.dataName, rfl⟩, Or.inl (by trivial)⟩
      · simp only [applyOp, handleGatewayEvent, if_neg h]
        exact ⟨le_refl _, le_refl _, le_refl _, le_refl _, Or.inl (by trivial), Or.inl (by trivial)⟩
    | other =>
      simp only [applyOp, handleGatewayEvent]
      exact ⟨le_refl _, le_refl _, le_refl _, le_refl _, Or.inl (by trivial), Or.inl (by trivial)⟩
  | commandError c =>
    simp only [applyOp, incrementCommandError]
    exact ⟨le_refl _, countOf_le_tallyIncrement _ _ _,
      le_refl _, isSome_le_tallyIncrement _ _ _,
      Or.inl (by trivial), Or.inr ⟨c, rfl⟩⟩
  | reportInflux o cs inp =>
    have h := report_preserves_tallies o cs st inp
    simp only [applyOp]
    rw [h.1, h.2]
    exact ⟨le_refl _, le_refl _, le_refl _, le_refl _, Or.inl (by trivial), Or.inl (by trivial)⟩
  | reportTopgg =>
    simp only [applyOp]
    exact ⟨le_refl _, le_refl _, le_refl _, le_refl _, Or.inl (by trivial), Or.inl (by trivial)⟩

/-- C10: an `INTERACTION_CREATE` event whose interaction is an application
command with a registered command id increments the invocation tally entry
for the command name by exactly 1, leaving every other entry, the error
tally, and the rest of the state unchanged; an `INTERACTION_CREATE` event
failing that condition, and any other gateway event, leaves the state
unchanged. -/
theorem interaction_create_attribution (reg : List String) (ev : GatewayEvent)
    (st : MetricsState) :
    (∀ d, ev = .interactionCreate d → d.type = applicationCommandType →
       reg.contains d.dataId = true →
       alistLookup (handleGatewayEvent reg ev st).commands d.dataName =
         some ((alistLookup st.commands d.dataName).getD 0 + 1)
       ∧ (∀ l, l ≠ d.dataName →
           alistLookup (handleGatewayEvent reg ev st).commands l =
             alistLookup st.commands l))
    ∧ (∀ d, ev = .interactionCreate d →
        ¬ (d.type = applicationCommandType ∧ reg.contains d.dataId = true) →
        handleGatewayEvent reg ev st = st)
    ∧ (ev = .other → handleGatewayEvent reg ev st = st)
    ∧ (handleGatewayEvent reg ev st).commandErrors = st.commandErrors := by
  refine ⟨?_, ?_, ?_, ?_⟩
  · intro d hev h1 h2
    subst hev
    simp only [handleGatewayEvent, if_pos (And.intro h1 h2)]
    refine ⟨?_, ?_⟩
    · rw [alistLookup_tallyIncrement]
      simp
    · intro l hl
      rw [alistLookup_tallyIncrement]
      simp [hl]
  · intro d hev hneg
    subst hev
    simp only [handleGatewayEvent, if_neg hneg]
  · intro hev
    subst hev
    simp [handleGatewayEvent]
  · cases ev with
    | interactionCreate d =>
      by_cases h : d.type = applicationCommandType ∧ reg.contains d.dataId = true
      · simp only [handleGatewayEvent, if_pos h]
      · simp only [handleGatewayEvent, if_neg h]
    | other => simp [handleGatewayEvent]

/-- Witness for `interaction_create_attribution`: a registered application
command interaction creates the entry with count 1, and a non-command event
leaves the state unchanged. -/
theorem interaction_create_attribution_witness :
    alistLookup
        (handleGatewayEvent ["id1"] (.interactionCreate ⟨2, "id1", "ping"⟩)
          ⟨[], [], ⟨⟨0, 0⟩, 0⟩⟩).commands "ping" = some 1
    ∧ handleGatewayEvent ["id1"] .other ⟨[], [], ⟨⟨0, 0⟩, 0⟩⟩ = ⟨[], [], ⟨⟨0, 0⟩, 0⟩⟩ := by
  have h := interaction_create_attribution ["id1"] (.interactionCreate ⟨2, "id1", "ping"⟩)
    ⟨[], [], ⟨⟨0, 0⟩, 0⟩⟩
  have h2 := interaction_create_attribution ["id1"] GatewayEvent.other ⟨[], [], ⟨⟨0, 0⟩, 0⟩⟩
  refine ⟨?_, h2.2.2.1 rfl⟩
  have := (h.1 ⟨2, "id1", "ping"⟩ rfl rfl (by decide)).1
  simpa [alistLookup] using this

end Boilerplate
